import Mathlib

/-!
Shallow embedding of the library-management HTTP service (`src/app.py`)
together with the entity models described in the specification.

JSON payloads are modelled as optional association lists from string keys
to JSON values (`Payload`); the relational store is modelled as a list of
rows plus an autoincrement counter.  Python exceptions that can escape a
function are modelled with `Except`; functions that cannot raise are plain
Lean functions.
-/

/-- JSON values as delivered by `request.get_json()`: null, booleans,
integers and strings (the fragments the handlers inspect). -/
inductive Value where
  | vNull : Value
  | vBool : Bool → Value
  | vInt : Int → Value
  | vStr : String → Value
deriving DecidableEq

/-- Python truthiness (`bool(x)`) for the modelled JSON values. -/
def Value.truthy : Value → Bool
  | Value.vNull => false
  | Value.vBool b => b
  | Value.vInt n => n != 0
  | Value.vStr s => !(s.data.isEmpty)

/-- A request body: `none` models a JSON `null` body, `some d` models a JSON
object with fields `d` (keys unique, first binding wins on lookup). -/
def Payload : Type := Option (List (String × Value))

/-- Python `data[k]` / `data.get(k)`: first binding for key `k`. -/
def lookupField (d : List (String × Value)) (k : String) : Option Value :=
  match d with
  | [] => none
  | kv :: tl => if kv.1 = k then some kv.2 else lookupField tl k

/-- Python `k in data`. -/
def hasKey (d : List (String × Value)) (k : String) : Bool :=
  d.any (fun kv => kv.1 = k)

/-- Whitespace characters removed by Python `str.strip()` (ASCII range). -/
def isPySpace (c : Char) : Bool :=
  c = ' ' || c = '\t' || c = '\n' || c = '\r' || c = '\x0b' || c = '\x0c'

/-- Python `str.strip()`: drop leading and trailing whitespace. -/
def pyStrip (s : String) : String :=
  ⟨((s.data.dropWhile isPySpace).reverse.dropWhile isPySpace).reverse⟩

/-- Characters of the name pattern class `[a-zA-Z\s-]` used by
`validate_member_data` (`\s` on `str` is `[ \t\n\r\f\v]`). -/
def isNameChar (c : Char) : Bool :=
  ('a' ≤ c && c ≤ 'z') || ('A' ≤ c && c ≤ 'Z') || isPySpace c || c = '-'

/-- A block of 2 to 50 characters of the name class. -/
def nameCore (cs : List Char) : Bool :=
  2 ≤ cs.length && cs.length ≤ 50 && cs.all isNameChar

/-- Python `re.match(r'^[a-zA-Z\s-]{2,50}$', s)` as a boolean: the whole
string matches, or everything before a final newline matches (`$` also
matches just before a trailing newline). -/
def nameMatches (s : String) : Bool :=
  nameCore s.data || (s.data.getLast? = some '\n' && nameCore s.data.dropLast)

/-- Value of an ASCII decimal digit. -/
def digitVal? (c : Char) : Option Nat :=
  if '0' ≤ c && c ≤ '9' then some (c.toNat - '0'.toNat) else none

/-- Digits of a Python integer literal after the first digit: single
underscores are allowed between digits. -/
def pyDigitsRest (acc : Nat) : List Char → Option Nat
  | [] => some acc
  | '_' :: c :: cs =>
    match digitVal? c with
    | some d => pyDigitsRest (acc * 10 + d) cs
    | none => none
  | c :: cs =>
    match digitVal? c with
    | some d => pyDigitsRest (acc * 10 + d) cs
    | none => none

/-- A nonempty run of digits (with optional single underscores between
digits), as accepted by Python `int`. -/
def pyDigits : List Char → Option Nat
  | [] => none
  | c :: cs =>
    match digitVal? c with
    | some d => pyDigitsRest d cs
    | none => none

/-- Python `int(s)` on a decimal string: strip whitespace, optional sign,
digits; `none` models the `ValueError` raised on malformed input. -/
def pyInt (s : String) : Option Int :=
  match (pyStrip s).data with
  | '+' :: cs => (pyDigits cs).map (fun n => (n : Int))
  | '-' :: cs => (pyDigits cs).map (fun n => -(n : Int))
  | cs => (pyDigits cs).map (fun n => (n : Int))

/-- Split a character list on a separator character; like Python
`s.split(sep)`, always returns at least one (possibly empty) piece. -/
def splitOnChar (sep : Char) : List Char → List (List Char)
  | [] => [[]]
  | c :: cs =>
    if c = sep then [] :: splitOnChar sep cs
    else
      match splitOnChar sep cs with
      | r :: rs => (c :: r) :: rs
      | [] => [[c]]

/-- Modelled from the spec: the external `email_validator.validate_email`
dependency imported by `src/app.py` is not part of this repository.  Per its
documented contract it checks email-address syntax (one `@`-sign, nonempty
local part, dotted nonempty domain labels) and raises `EmailNotValidError`
when the check fails — modelled as `Except.error`; on success it returns a
validated-email object, which is truthy — modelled as `Except.ok true`.
Deliverability (DNS) checking is environment-dependent and is modelled as
passing for syntactically valid addresses, per the specification's statement
that `a@b.com` is accepted. -/
def validate_email (s : String) : Except String Bool :=
  match splitOnChar '@' s.data with
  | [loc, dom] =>
    if loc ≠ [] && dom ≠ [] && (splitOnChar '.' dom).length ≥ 2 &&
        (splitOnChar '.' dom).all (fun p => p ≠ []) then
      Except.ok true
    else
      Except.error "EmailNotValidError"
  | _ => Except.error "EmailNotValidError"

/-- `validate_book_data` (src/app.py lines 14-28): payload must be truthy
and contain nonempty string fields `title` and `author`; checks run in
source order (`title` before `author`; presence, string-ness, emptiness). -/
def validate_book_data (data : Payload) : Bool × String :=
  match data with
  | none => (false, "No data provided")
  | some d =>
    if d = [] then (false, "No data provided")
    else
      match lookupField d "title" with
      | none => (false, "Missing required field: title")
      | some (Value.vStr t) =>
        if pyStrip t = "" then (false, "title cannot be empty")
        else
          match lookupField d "author" with
          | none => (false, "Missing required field: author")
          | some (Value.vStr a) =>
            if pyStrip a = "" then (false, "author cannot be empty")
            else (true, "")
          | some _ => (false, "author must be a string")
      | some _ => (false, "title must be a string")

/-- `validate_member_data` (src/app.py lines 31-53).  The field loop checks
`name` then `email` (presence, string-ness, emptiness), then the name
pattern, then `validate_email`, whose `EmailNotValidError` propagates out of
the function (`Except.error`); the `(False, "Invalid email address")` branch
is only reachable if `validate_email` returned a falsy value. -/
def validate_member_data (data : Payload) : Except String (Bool × String) :=
  match data with
  | none => Except.ok (false, "No data provided")
  | some d =>
    if d = [] then Except.ok (false, "No data provided")
    else
      match lookupField d "name" with
      | none => Except.ok (false, "Missing required field: name")
      | some (Value.vStr n) =>
        if pyStrip n = "" then Except.ok (false, "name cannot be empty")
        else
          match lookupField d "email" with
          | none => Except.ok (false, "Missing required field: email")
          | some (Value.vStr e) =>
            if pyStrip e = "" then Except.ok (false, "email cannot be empty")
            else if !(nameMatches n) then
              Except.ok (false,
                "Name must be 2-50 characters and contain only letters, spaces, and hyphens")
            else
              match validate_email e with
              | Except.error exn => Except.error exn
              | Except.ok v =>
                if !v then Except.ok (false, "Invalid email address")
                else Except.ok (true, "")
          | some _ => Except.ok (false, "email must be a string")
      | some _ => Except.ok (false, "name must be a string")

/-- One pagination input after Python's `int(x) if x else dflt`: absent or
empty inputs take the default, otherwise `pyInt` (whose `none` models the
`ValueError` caught by the handler). -/
def parsePageParam (o : Option String) (dflt : Int) : Option Int :=
  match o with
  | none => some dflt
  | some s => if s = "" then some dflt else pyInt s

/-- `validate_pagination_params` (src/app.py lines 56-71): defaults page=1,
per_page=10; bounds page ≥ 1 and 1 ≤ per_page ≤ 100; a `ValueError` from
either `int` conversion is caught and reported. -/
def validate_pagination_params (page per_page : Option String) :
    Bool × String × List (String × Int) :=
  match parsePageParam page 1, parsePageParam per_page 10 with
  | some p, some q =>
    if p < 1 then (false, "Page number must be positive", [])
    else if q < 1 ∨ q > 100 then
      (false, "Items per page must be between 1 and 100", [])
    else (true, "", [("page", p), ("per_page", q)])
  | _, _ => (false, "Invalid pagination parameters", [])

/-- Modelled from the spec: the entity models live in `models.py`, which is
not under `src/`.  Per the specification (sections 3 and 4.1) a Book row has
a system-generated integer id, title, author and an `available` column, and
the model layer has no behavior beyond field storage and serialization, so
fields are stored verbatim.  `available` is kept as a `Value` because the
handlers may store any JSON value in it. -/
structure Book where
  id : Nat
  title : String
  author : String
  available : Value
deriving DecidableEq

/-- Modelled from the spec: `models.py` Member entity — id plus `name` and
`email` columns, stored verbatim (the create-member handler performs no
conversion on the values it inserts). -/
structure Member where
  id : Nat
  name : Value
  email : Value
deriving DecidableEq

/-- The books table plus the autoincrement counter for the next id. -/
structure Store where
  books : List Book
  nextId : Nat
deriving DecidableEq

/-- The members table plus its autoincrement counter. -/
structure MemberStore where
  members : List Member
  nextId : Nat
deriving DecidableEq

/-- Response of a book-returning handler: HTTP status, message, and the
serialized book row when one is returned. -/
structure BookResp where
  status : Nat
  message : String
  book : Option Book
deriving DecidableEq

/-- Response carrying only a status and a message. -/
structure MsgResp where
  status : Nat
  message : String
deriving DecidableEq

/-- Response of the create-member handler. -/
structure MemberResp where
  status : Nat
  message : String
  member : Option Member
deriving DecidableEq

/-- Response of the search handler: status, message, count and matches. -/
structure SearchResp where
  status : Nat
  message : String
  count : Nat
  books : List Book
deriving DecidableEq

/-- `create_book` (src/app.py lines 75-97): validate, then insert a row with
trimmed title/author and `available` defaulting to `True`; the unreachable
arms (validation passed but fields missing) are modelled as a 500. -/
def create_book (data : Payload) (s : Store) : BookResp × Store :=
  match validate_book_data data with
  | (false, msg) => (⟨400, msg, none⟩, s)
  | (true, _) =>
    match data with
    | some d =>
      match lookupField d "title", lookupField d "author" with
      | some (Value.vStr t), some (Value.vStr a) =>
        let b : Book :=
          ⟨s.nextId, pyStrip t, pyStrip a,
            (lookupField d "available").getD (Value.vBool true)⟩
        (⟨201, "Book created successfully", some b⟩,
          ⟨s.books ++ [b], s.nextId + 1⟩)
      | _, _ => (⟨500, "Internal Server Error", none⟩, s)
    | none => (⟨500, "Internal Server Error", none⟩, s)

/-- Line 116-117 of src/app.py: a present `title` is stored trimmed (it is
always a string here, because a present key forced `validate_book_data` to
pass earlier; the catch-all arm is the unreachable `AttributeError` state). -/
def applyTitleField (d : List (String × Value)) (book : Book) : Book :=
  match lookupField d "title" with
  | some (Value.vStr t) => { book with title := pyStrip t }
  | _ => book

/-- Line 118-119 of src/app.py: a present `author` is stored trimmed. -/
def applyAuthorField (d : List (String × Value)) (book : Book) : Book :=
  match lookupField d "author" with
  | some (Value.vStr a) => { book with author := pyStrip a }
  | _ => book

/-- Line 120-121 of src/app.py: a present `available` is stored as its
truthiness coercion `bool(...)`. -/
def applyAvailField (d : List (String × Value)) (book : Book) : Book :=
  match lookupField d "available" with
  | some v => { book with available := Value.vBool v.truthy }
  | none => book

/-- The whole field rewrite of src/app.py lines 116-121 applied to the
fetched row. -/
def applyUpdate (d : List (String × Value)) (book : Book) : Book :=
  applyAvailField d (applyAuthorField d (applyTitleField d book))

/-- `update_book` (src/app.py lines 100-128): a `null` body raises a
`TypeError` in `any(key in data ...)` (modelled as a 500); if `title` or
`author` is present the whole payload must pass `validate_book_data`;
then the row is fetched, the present fields are applied via `applyUpdate`,
and the row is replaced in the store. -/
def update_book (book_id : Nat) (data : Payload) (s : Store) : BookResp × Store :=
  match data with
  | none => (⟨500, "Internal Server Error", none⟩, s)
  | some d =>
    if (hasKey d "title" || hasKey d "author") && !(validate_book_data (some d)).1 then
      (⟨400, (validate_book_data (some d)).2, none⟩, s)
    else
      match s.books.find? (fun b => b.id = book_id) with
      | none => (⟨404, "Book not found", none⟩, s)
      | some book =>
        (⟨200, "Book updated successfully", some (applyUpdate d book)⟩,
          { s with
            books := s.books.map (fun x => if x.id = book_id then applyUpdate d book else x) })

/-- `delete_book` (src/app.py lines 131-141): 404 when the id is absent,
otherwise remove exactly the fetched row. -/
def delete_book (book_id : Nat) (s : Store) : MsgResp × Store :=
  match s.books.find? (fun b => b.id = book_id) with
  | none => (⟨404, "Book not found"⟩, s)
  | some _ =>
    (⟨200, "Book deleted successfully"⟩,
      { s with books := s.books.eraseP (fun b => b.id = book_id) })

/-- `create_member` (src/app.py lines 146-161): only key presence is
checked (`not data or 'name' not in data or 'email' not in data`); the
values are inserted verbatim and `validate_member_data` is never called. -/
def create_member (data : Payload) (ms : MemberStore) : MemberResp × MemberStore :=
  match data with
  | none => (⟨400, "Name and Email are required", none⟩, ms)
  | some d =>
    if d = [] then (⟨400, "Name and Email are required", none⟩, ms)
    else if !(hasKey d "name") || !(hasKey d "email") then
      (⟨400, "Name and Email are required", none⟩, ms)
    else
      match lookupField d "name", lookupField d "email" with
      | some n, some e =>
        let m : Member := ⟨ms.nextId, n, e⟩
        (⟨201, "Member created successfully", some m⟩,
          ⟨ms.members ++ [m], ms.nextId + 1⟩)
      | _, _ => (⟨500, "Internal Server Error", none⟩, ms)

/-- SQLite `lower()`: lowercase ASCII letters, leave everything else. -/
def sqlLowerChar (c : Char) : Char :=
  if 65 ≤ c.toNat && c.toNat ≤ 90 then Char.ofNat (c.toNat + 32) else c

/-- SQL `LIKE` pattern matching: `%` matches any run of characters (the
rest of the pattern must match some suffix of the text), `_` matches
exactly one character, anything else matches itself. -/
def likeMatch : List Char → List Char → Bool
  | [], hay => hay.isEmpty
  | p :: ps, hay =>
    if p = '%' then
      (List.range (hay.length + 1)).any (fun n => likeMatch ps (hay.drop n))
    else
      match hay with
      | [] => false
      | h :: hs => (p == '_' || p == h) && likeMatch ps hs

/-- `column.ilike(pattern)` as emitted on SQLite: `lower(column) LIKE
lower(pattern)`. -/
def ilike (hay : String) (pattern : List Char) : Bool :=
  likeMatch (pattern.map sqlLowerChar) (hay.data.map sqlLowerChar)

/-- `search_books` (src/app.py lines 164-184): strip both query params,
400 when both are empty, else filter by `ilike('%param%')` on title and/or
author (title filter first, conjunction when both are given). -/
def search_books (title author : Option String) (s : Store) : SearchResp :=
  let t := pyStrip (title.getD "")
  let a := pyStrip (author.getD "")
  if t = "" && a = "" then
    ⟨400, "At least one search parameter (title or author) is required", 0, []⟩
  else
    let q1 := if t = "" then s.books
      else s.books.filter (fun b => ilike b.title ('%' :: t.data ++ ['%']))
    let q2 := if a = "" then q1
      else q1.filter (fun b => ilike b.author ('%' :: a.data ++ ['%']))
    ⟨200, "", q2.length, q2⟩

/-- C1: the claim states that every validator returns a result and never
raises, and in particular that `validate_member_data` returns a
`(False, message)` pair on a syntactically invalid email.  The code
contradicts this: the external `validate_email` raises `EmailNotValidError`
on invalid input (it never returns a falsy value), so the exception
propagates out of `validate_member_data`; this theorem evaluates the
validator at the failing input and shows the raise. -/
theorem validate_member_data_raises_on_invalid_email :
    validate_member_data
        (some [("name", Value.vStr "Anna Li"), ("email", Value.vStr "not-an-email")]) =
      Except.error "EmailNotValidError" := by
  rfl

/-- C2: `validate_member_data` accepts name "Anna Li" with email "a@b.com"
and rejects name "A1" with a failure result; but for email "not-an-email"
it does not return a failure result — the email check raises, so the third
conjunct records the divergence from the claim. -/
theorem validate_member_data_examples :
    validate_member_data
        (some [("name", Value.vStr "Anna Li"), ("email", Value.vStr "a@b.com")]) =
      Except.ok (true, "")
  ∧ validate_member_data
        (some [("name", Value.vStr "A1"), ("email", Value.vStr "a@b.com")]) =
      Except.ok (false,
        "Name must be 2-50 characters and contain only letters, spaces, and hyphens")
  ∧ validate_member_data
        (some [("name", Value.vStr "Anna Li"), ("email", Value.vStr "not-an-email")]) =
      Except.error "EmailNotValidError" := by
  exact ⟨rfl, rfl, rfl⟩

/-- C6: pagination validation defaults page to 1 and per_page to 10 on
absent or empty inputs; "1"/"100" succeed while per_page "0" and "101"
fail; and in general validation fails exactly when an input fails Python
`int` conversion, or page < 1, or per_page is outside 1..100, with the
parameter mapping empty whenever validation fails. -/
theorem validate_pagination_params_characterization :
    validate_pagination_params none none = (true, "", [("page", 1), ("per_page", 10)])
  ∧ validate_pagination_params (some "") (some "") =
      (true, "", [("page", 1), ("per_page", 10)])
  ∧ validate_pagination_params (some "1") (some "100") =
      (true, "", [("page", 1), ("per_page", 100)])
  ∧ validate_pagination_params none (some "0") =
      (false, "Items per page must be between 1 and 100", [])
  ∧ validate_pagination_params none (some "101") =
      (false, "Items per page must be between 1 and 100", [])
  ∧ ∀ page per_page : Option String,
      ((validate_pagination_params page per_page).1 = false ↔
        match parsePageParam page 1, parsePageParam per_page 10 with
        | some p, some q => p < 1 ∨ q < 1 ∨ q > 100
        | _, _ => True)
      ∧ ((validate_pagination_params page per_page).1 = true ∨
          (validate_pagination_params page per_page).2.2 = []) := by
  refine ⟨rfl, rfl, rfl, rfl, rfl, ?_⟩
  intro page per_page
  unfold validate_pagination_params
  rcases parsePageParam page 1 with _ | p
  · simp
  · rcases parsePageParam per_page 10 with _ | q
    · simp
    · by_cases h1 : p < 1
      · simp [h1]
      · by_cases h2 : q < 1 ∨ q > 100
        · simp only [if_neg h1, if_pos h2]
          refine ⟨?_, ?_⟩
          · simp only [eq_self_iff_true, true_iff]
            tauto
          · tauto
        · simp only [if_neg h1, if_neg h2]
          refine ⟨?_, ?_⟩
          · constructor
            · intro hfalse
              exact absurd hfalse (by simp)
            · intro hor
              tauto
          · tauto

theorem lookupField_none_iff (d : List (String × Value)) (k : String) :
    lookupField d k = none ↔ hasKey d k = false := by
  induction d with
  | nil => simp [lookupField, hasKey]
  | cons kv tl ih =>
    by_cases hk : kv.1 = k
    · simp [lookupField, hasKey, hk]
    · simp only [lookupField, hasKey, List.any_cons] at ih ⊢
      simp [hk, ih]

theorem hasKey_of_lookupField {d : List (String × Value)} {k : String} {v : Value}
    (h : lookupField d k = some v) : hasKey d k = true := by
  rcases hh : hasKey d k with _ | _
  · have hnone := (lookupField_none_iff d k).mpr hh
    rw [hnone] at h
    cases h
  · rfl

theorem lookupField_isSome_of_hasKey {d : List (String × Value)} {k : String}
    (h : hasKey d k = true) : ∃ v, lookupField d k = some v := by
  rcases hl : lookupField d k with _ | v
  · rw [lookupField_none_iff] at hl
    rw [h] at hl
    cases hl
  · exact ⟨v, rfl⟩

/-- C3: the create-member handler returns 400 exactly when the payload is
null or lacks the key `name` or the key `email`; whenever both keys are
present it returns 201 and inserts the member with both values stored
verbatim (no type, length or format check, i.e. the behavior of
`validate_member_data` plays no role on this path). -/
theorem create_member_key_presence_only (data : Payload) (ms : MemberStore) :
    ((create_member data ms).1.status = 400 ↔
      data = none ∨ ∃ d, data = some d ∧
        (hasKey d "name" = false ∨ hasKey d "email" = false))
  ∧ ∀ (d : List (String × Value)) (n e : Value), data = some d →
      lookupField d "name" = some n → lookupField d "email" = some e →
      (create_member data ms).1.status = 201
      ∧ (create_member data ms).1.member = some ⟨ms.nextId, n, e⟩
      ∧ (create_member data ms).2.members = ms.members ++ [⟨ms.nextId, n, e⟩] := by
  constructor
  · match data with
    | none =>
      constructor
      · intro _
        exact Or.inl rfl
      · intro _
        rfl
    | some d =>
      by_cases hd : d = []
      · subst hd
        constructor
        · intro _
          exact Or.inr ⟨[], rfl, Or.inl rfl⟩
        · intro _
          rfl
      · by_cases hn : hasKey d "name"
        · by_cases he : hasKey d "email"
          · obtain ⟨vn, hvn⟩ := lookupField_isSome_of_hasKey hn
            obtain ⟨ve, hve⟩ := lookupField_isSome_of_hasKey he
            have hstat : (create_member (some d) ms).1.status = 201 := by
              simp [create_member, if_neg hd, hn, he, hvn, hve]
            rw [hstat]
            constructor
            · intro h201
              exact absurd h201 (by omega)
            · rintro (hcontr | ⟨d2, hd2, hc⟩)
              · cases hcontr
              · injection hd2 with hdd
                subst hdd
                rcases hc with hc | hc
                · rw [hn] at hc
                  cases hc
                · rw [he] at hc
                  cases hc
          · simp only [Bool.not_eq_true] at he
            have hstat : (create_member (some d) ms).1.status = 400 := by
              simp [create_member, if_neg hd, hn, he]
            rw [hstat]
            constructor
            · intro _
              exact Or.inr ⟨d, rfl, Or.inr he⟩
            · intro _
              rfl
        · simp only [Bool.not_eq_true] at hn
          have hstat : (create_member (some d) ms).1.status = 400 := by
            simp [create_member, if_neg hd, hn]
          rw [hstat]
          constructor
          · intro _
            exact Or.inr ⟨d, rfl, Or.inl hn⟩
          · intro _
            rfl
  · intro d n e hdata hn he
    subst hdata
    have hd : d ≠ [] := by
      intro h
      subst h
      simp [lookupField] at hn
    have hkn := hasKey_of_lookupField hn
    have hke := hasKey_of_lookupField he
    refine ⟨?_, ?_, ?_⟩ <;> simp [create_member, if_neg hd, hkn, hke, hn, he]

/-- Spec-side predicate for C4: a create-book payload the claim calls
invalid — null, or missing `title`/`author`, or with a non-string or
trims-to-empty `title`/`author` (an empty object misses both fields). -/
def badBookField (d : List (String × Value)) (k : String) : Bool :=
  match lookupField d k with
  | none => true
  | some (Value.vStr s) => pyStrip s = ""
  | some _ => true

/-- Spec-side predicate for C4 over whole payloads. -/
def bookPayloadBad : Payload → Bool
  | none => true
  | some d => badBookField d "title" || badBookField d "author"

theorem validate_book_false_of_bad (data : Payload) (h : bookPayloadBad data = true) :
    (validate_book_data data).1 = false ∧ (validate_book_data data).2 ≠ "" := by
  match data with
  | none => exact ⟨rfl, by simp [validate_book_data]⟩
  | some d =>
    by_cases hd : d = []
    · subst hd
      simp [validate_book_data]
    · simp only [bookPayloadBad] at h
      rcases ht : lookupField d "title" with _ | v
      · simp [validate_book_data, if_neg hd, ht]
      · match v with
        | Value.vStr t =>
          by_cases hts : pyStrip t = ""
          · simp [validate_book_data, if_neg hd, ht, hts]
          · have hbadA : badBookField d "author" = true := by
              have hbt : badBookField d "title" = false := by
                simp [badBookField, ht, hts]
              rw [hbt] at h
              simpa using h
            rcases ha : lookupField d "author" with _ | w
            · simp [validate_book_data, if_neg hd, ht, if_neg hts, ha]
            · match w with
              | Value.vStr a =>
                have has : pyStrip a = "" := by
                  simpa [badBookField, ha] using hbadA
                simp [validate_book_data, if_neg hd, ht, if_neg hts, ha, has]
              | Value.vNull =>
                simp [validate_book_data, if_neg hd, ht, if_neg hts, ha]
              | Value.vBool b =>
                simp [validate_book_data, if_neg hd, ht, if_neg hts, ha]
              | Value.vInt n =>
                simp [validate_book_data, if_neg hd, ht, if_neg hts, ha]
        | Value.vNull => simp [validate_book_data, if_neg hd, ht]
        | Value.vBool b => simp [validate_book_data, if_neg hd, ht]
        | Value.vInt n => simp [validate_book_data, if_neg hd, ht]

/-- C4: for every payload that is null, or missing `title` or `author`, or
whose `title` or `author` is not a string or trims to the empty string, the
create-book handler answers 400 with a nonempty message and leaves the
store untouched. -/
theorem create_book_rejects_bad_payloads (data : Payload) (s : Store)
    (h : bookPayloadBad data = true) :
    (create_book data s).1.status = 400
    ∧ (create_book data s).1.message ≠ ""
    ∧ (create_book data s).2 = s := by
  obtain ⟨h1, h2⟩ := validate_book_false_of_bad data h
  rcases hv : validate_book_data data with ⟨fl, msg⟩
  rw [hv] at h1 h2
  simp only at h1 h2
  subst h1
  refine ⟨?_, ?_, ?_⟩ <;> simp [create_book, hv, h2]

theorem create_book_rejects_bad_payloads_witness :
    bookPayloadBad (some [("title", Value.vStr "  "), ("author", Value.vStr "A")]) = true
    ∧ (create_book (some [("title", Value.vStr "  "), ("author", Value.vStr "A")])
        ⟨[], 1⟩).1.status = 400
    ∧ (create_book (some [("title", Value.vStr "  "), ("author", Value.vStr "A")])
        ⟨[], 1⟩).2 = ⟨[], 1⟩ := by
  refine ⟨by decide, ?_, ?_⟩
  · exact (create_book_rejects_bad_payloads
      (some [("title", Value.vStr "  "), ("author", Value.vStr "A")]) ⟨[], 1⟩ (by decide)).1
  · exact (create_book_rejects_bad_payloads
      (some [("title", Value.vStr "  "), ("author", Value.vStr "A")]) ⟨[], 1⟩ (by decide)).2.2

theorem validate_book_data_ok_of_fields (d : List (String × Value)) (t a : String)
    (ht : lookupField d "title" = some (Value.vStr t))
    (ha : lookupField d "author" = some (Value.vStr a))
    (hts : pyStrip t ≠ "") (has : pyStrip a ≠ "") :
    validate_book_data (some d) = (true, "") := by
  have hd : d ≠ [] := by
    intro h
    subst h
    simp [lookupField] at ht
  simp [validate_book_data, if_neg hd, ht, ha, if_neg hts, if_neg has]

/-- C5: create-book inserts the row with title and author trimmed of
surrounding whitespace, so any later retrieval of the row sees the trimmed
values, and update-book applies the same trimming when it rewrites the
row. -/
theorem book_fields_trimmed (s : Store) (d : List (String × Value)) (t a : String)
    (ht : lookupField d "title" = some (Value.vStr t))
    (ha : lookupField d "author" = some (Value.vStr a))
    (hts : pyStrip t ≠ "") (has : pyStrip a ≠ "") :
    ((create_book (some d) s).1.book =
        some ⟨s.nextId, pyStrip t, pyStrip a,
          (lookupField d "available").getD (Value.vBool true)⟩
      ∧ (create_book (some d) s).2.books =
          s.books ++ [⟨s.nextId, pyStrip t, pyStrip a,
            (lookupField d "available").getD (Value.vBool true)⟩])
  ∧ ∀ (i : Nat) (b : Book), s.books.find? (fun x => x.id = i) = some b →
      ∃ b2, (update_book i (some d) s).1.book = some b2
        ∧ b2.title = pyStrip t ∧ b2.author = pyStrip a
        ∧ (update_book i (some d) s).2.books =
            s.books.map (fun x => if x.id = i then b2 else x) := by
  have hok := validate_book_data_ok_of_fields d t a ht ha hts has
  constructor
  · constructor <;> simp [create_book, hok, ht, ha]
  · intro i b hfind
    rcases hav : lookupField d "available" with _ | v
    · refine ⟨{ b with title := pyStrip t, author := pyStrip a }, ?_, rfl, rfl, ?_⟩
      · simp [update_book, applyUpdate, applyTitleField, applyAuthorField, applyAvailField, hok, hfind, ht, ha, hav]
      · simp [update_book, applyUpdate, applyTitleField, applyAuthorField, applyAvailField, hok, hfind, ht, ha, hav]
    · refine ⟨{ b with title := pyStrip t, author := pyStrip a, available := Value.vBool v.truthy }, ?_, rfl, rfl, ?_⟩
      · simp [update_book, applyUpdate, applyTitleField, applyAuthorField, applyAvailField, hok, hfind, ht, ha, hav]
      · simp [update_book, applyUpdate, applyTitleField, applyAuthorField, applyAvailField, hok, hfind, ht, ha, hav]

theorem book_fields_trimmed_witness :
    pyStrip " Dune " = "Dune"
    ∧ (create_book
        (some [("title", Value.vStr " Dune "), ("author", Value.vStr " Frank Herbert ")])
        ⟨[], 1⟩).2.books =
      [⟨1, "Dune", "Frank Herbert", Value.vBool true⟩] := by
  constructor
  · rfl
  · rw [(book_fields_trimmed ⟨[], 1⟩
      [("title", Value.vStr " Dune "), ("author", Value.vStr " Frank Herbert ")]
      " Dune " " Frank Herbert " rfl rfl (by decide) (by decide)).1.2]
    decide

/-- A one-book store used by concrete witnesses. -/
def demoStore : Store := ⟨[⟨1, "Dune", "Frank Herbert", Value.vBool true⟩], 2⟩

theorem find?_eraseP_of_nodup (l : List Book) (i : Nat)
    (hnodup : (l.map Book.id).Nodup) :
    (l.eraseP (fun b => b.id = i)).find? (fun b => b.id = i) = none := by
  induction l with
  | nil => rfl
  | cons x tl ih =>
    have hnd : x.id ∉ tl.map Book.id ∧ (tl.map Book.id).Nodup := by
      rw [List.map_cons, List.nodup_cons] at hnodup
      exact hnodup
    by_cases hx : x.id = i
    · rw [List.eraseP_cons_of_pos (by simp [hx])]
      rw [List.find?_eq_none]
      intro y hy
      simp only [decide_eq_true_eq]
      intro hyi
      exact hnd.1 (by rw [hx, ← hyi]; exact List.mem_map_of_mem Book.id hy)
    · rw [List.eraseP_cons_of_neg (by simp [hx])]
      rw [List.find?_cons_of_neg _ (by simp [hx])]
      exact ih hnd.2

/-- C9: deleting an id absent from the store answers 404 and leaves the
store unchanged; deleting an existing id answers 200 and removes the row,
after which deleting the same id again answers 404 and changes nothing
(row ids are unique, as the primary key guarantees). -/
theorem delete_book_twice (s : Store) (i : Nat) :
    (s.books.find? (fun x => x.id = i) = none →
      delete_book i s = (⟨404, "Book not found"⟩, s))
  ∧ ∀ b : Book, s.books.find? (fun x => x.id = i) = some b →
      (s.books.map Book.id).Nodup →
      (delete_book i s).1.status = 200
      ∧ (delete_book i s).2.books = s.books.eraseP (fun x => x.id = i)
      ∧ (delete_book i ((delete_book i s).2)).1.status = 404
      ∧ (delete_book i ((delete_book i s).2)).2 = (delete_book i s).2 := by
  constructor
  · intro h
    simp [delete_book, h]
  · intro b hfind hnodup
    have hbooks : (delete_book i s).2.books = s.books.eraseP (fun x => x.id = i) := by
      simp [delete_book, hfind]
    have hnone : ((delete_book i s).2).books.find? (fun x => x.id = i) = none := by
      rw [hbooks]
      exact find?_eraseP_of_nodup s.books i hnodup
    refine ⟨by simp [delete_book, hfind], hbooks, ?_, ?_⟩
    · generalize hg : (delete_book i s).2 = s2 at hnone ⊢
      simp [delete_book, hnone]
    · generalize hg : (delete_book i s).2 = s2 at hnone ⊢
      simp [delete_book, hnone]

theorem delete_book_twice_witness :
    (delete_book 99999 demoStore).1.status = 404
    ∧ (delete_book 99999 demoStore).2 = demoStore
    ∧ (delete_book 1 demoStore).1.status = 200
    ∧ (delete_book 1 ((delete_book 1 demoStore).2)).1.status = 404 := by
  refine ⟨?_, ?_, ?_, ?_⟩
  · rw [(delete_book_twice demoStore 99999).1 (by decide)]
  · rw [(delete_book_twice demoStore 99999).1 (by decide)]
  · exact ((delete_book_twice demoStore 1).2
      ⟨1, "Dune", "Frank Herbert", Value.vBool true⟩ (by decide) (by decide)).1
  · exact ((delete_book_twice demoStore 1).2
      ⟨1, "Dune", "Frank Herbert", Value.vBool true⟩ (by decide) (by decide)).2.2.1

theorem create_member_key_presence_only_witness :
    (create_member (some [("name", Value.vStr "A1"), ("email", Value.vInt 7)])
        ⟨[], 1⟩).1.status = 201
    ∧ (create_member (some [("name", Value.vStr "A1"), ("email", Value.vInt 7)])
        ⟨[], 1⟩).2.members = [⟨1, Value.vStr "A1", Value.vInt 7⟩] := by
  have h := (create_member_key_presence_only
      (some [("name", Value.vStr "A1"), ("email", Value.vInt 7)]) ⟨[], 1⟩).2
      [("name", Value.vStr "A1"), ("email", Value.vInt 7)]
      (Value.vStr "A1") (Value.vInt 7) rfl (by decide) (by decide)
  refine ⟨h.1, ?_⟩
  rw [h.2.2]
  rfl

theorem applyTitleField_frame (d : List (String × Value)) (book : Book) :
    (applyTitleField d book).id = book.id
    ∧ (applyTitleField d book).author = book.author
    ∧ (applyTitleField d book).available = book.available := by
  rcases h1 : lookupField d "title" with _ | v1
  · simp [applyTitleField, h1]
  · cases v1 <;> simp [applyTitleField, h1]

theorem applyTitleField_of_absent (d : List (String × Value)) (book : Book)
    (h : hasKey d "title" = false) :
    applyTitleField d book = book := by
  have hl : lookupField d "title" = none := (lookupField_none_iff d "title").mpr h
  simp [applyTitleField, hl]

theorem applyAuthorField_frame (d : List (String × Value)) (book : Book) :
    (applyAuthorField d book).id = book.id
    ∧ (applyAuthorField d book).title = book.title
    ∧ (applyAuthorField d book).available = book.available := by
  rcases h1 : lookupField d "author" with _ | v1
  · simp [applyAuthorField, h1]
  · cases v1 <;> simp [applyAuthorField, h1]

theorem applyAuthorField_of_absent (d : List (String × Value)) (book : Book)
    (h : hasKey d "author" = false) :
    applyAuthorField d book = book := by
  have hl : lookupField d "author" = none := (lookupField_none_iff d "author").mpr h
  simp [applyAuthorField, hl]

theorem applyAvailField_frame (d : List (String × Value)) (book : Book) :
    (applyAvailField d book).id = book.id
    ∧ (applyAvailField d book).title = book.title
    ∧ (applyAvailField d book).author = book.author := by
  rcases h1 : lookupField d "available" with _ | v1 <;> simp [applyAvailField, h1]

theorem applyAvailField_of_absent (d : List (String × Value)) (book : Book)
    (h : hasKey d "available" = false) :
    applyAvailField d book = book := by
  have hl : lookupField d "available" = none := (lookupField_none_iff d "available").mpr h
  simp [applyAvailField, hl]

theorem applyUpdate_id (d : List (String × Value)) (book : Book) :
    (applyUpdate d book).id = book.id := by
  unfold applyUpdate
  rw [(applyAvailField_frame d _).1, (applyAuthorField_frame d _).1,
    (applyTitleField_frame d _).1]

theorem applyUpdate_title_of_absent (d : List (String × Value)) (book : Book)
    (h : hasKey d "title" = false) :
    (applyUpdate d book).title = book.title := by
  unfold applyUpdate
  rw [(applyAvailField_frame d _).2.1, (applyAuthorField_frame d _).2.1,
    applyTitleField_of_absent d book h]

theorem applyUpdate_author_of_absent (d : List (String × Value)) (book : Book)
    (h : hasKey d "author" = false) :
    (applyUpdate d book).author = book.author := by
  unfold applyUpdate
  rw [(applyAvailField_frame d _).2.2, applyAuthorField_of_absent d _ h,
    (applyTitleField_frame d _).2.1]

theorem applyUpdate_available_of_absent (d : List (String × Value)) (book : Book)
    (h : hasKey d "available" = false) :
    (applyUpdate d book).available = book.available := by
  unfold applyUpdate
  rw [applyAvailField_of_absent d _ h, (applyAuthorField_frame d _).2.2,
    (applyTitleField_frame d _).2.2]

theorem applyUpdate_available_of_present (d : List (String × Value)) (book : Book)
    (v : Value) (h : lookupField d "available" = some v) :
    (applyUpdate d book).available = Value.vBool v.truthy := by
  unfold applyUpdate applyAvailField
  rw [h]

/-- C8: updating an existing book with the body containing only
`available: false` answers 200, flips only `available` and keeps id, title
and author; in general, for every row of the store, an update leaves the id
and every field whose key is absent from the body unchanged (row ids are
unique, as the primary key guarantees). -/
theorem update_book_frame (s : Store) (i : Nat) (b : Book)
    (hfind : s.books.find? (fun x => x.id = i) = some b)
    (hnodup : (s.books.map Book.id).Nodup) :
    ((update_book i (some [("available", Value.vBool false)]) s).1.status = 200
      ∧ (update_book i (some [("available", Value.vBool false)]) s).1.book =
          some { b with available := Value.vBool false }
      ∧ (update_book i (some [("available", Value.vBool false)]) s).2.books =
          s.books.map (fun x =>
            if x.id = i then { b with available := Value.vBool false } else x))
  ∧ ∀ (d : List (String × Value)) (j : Nat) (x y : Book),
      s.books[j]? = some x →
      ((update_book i (some d) s).2).books[j]? = some y →
      y.id = x.id
      ∧ (hasKey d "title" = false → y.title = x.title)
      ∧ (hasKey d "author" = false → y.author = x.author)
      ∧ (hasKey d "available" = false → y.available = x.available) := by
  constructor
  · refine ⟨?_, ?_, ?_⟩ <;>
      simp [update_book, hfind, applyUpdate, applyTitleField, applyAuthorField,
        applyAvailField, hasKey, lookupField, Value.truthy]
  · intro d j x y hx hy
    by_cases hcond :
        ((hasKey d "title" || hasKey d "author") && !(validate_book_data (some d)).1) = true
    · have hs : (update_book i (some d) s).2 = s := by
        simp [update_book, hcond]
      rw [hs, hx] at hy
      injection hy with hyx
      subst hyx
      exact ⟨rfl, fun _ => rfl, fun _ => rfl, fun _ => rfl⟩
    · have hcond2 :
          ((hasKey d "title" || hasKey d "author") && !(validate_book_data (some d)).1) = false := by
        simpa using hcond
      have hbooks : (update_book i (some d) s).2.books =
          s.books.map (fun z => if z.id = i then applyUpdate d b else z) := by
        simp [update_book, hcond2, hfind]
      rw [hbooks, List.getElem?_map, hx] at hy
      simp only [Option.map_some'] at hy
      injection hy with hyx
      by_cases hxi : x.id = i
      · have hb_mem := List.mem_of_find?_eq_some hfind
        have hb_id : b.id = i := by
          have := List.find?_some hfind
          simpa using this
        have hx_mem : x ∈ s.books := List.getElem?_mem hx
        have hxb : x = b :=
          List.inj_on_of_nodup_map hnodup hx_mem hb_mem (by rw [hxi, hb_id])
        subst hxb
        rw [if_pos hxi] at hyx
        subst hyx
        refine ⟨applyUpdate_id d x, ?_, ?_, ?_⟩
        · intro h
          exact applyUpdate_title_of_absent d x h
        · intro h
          exact applyUpdate_author_of_absent d x h
        · intro h
          exact applyUpdate_available_of_absent d x h
      · rw [if_neg hxi] at hyx
        subst hyx
        exact ⟨rfl, fun _ => rfl, fun _ => rfl, fun _ => rfl⟩

theorem update_book_frame_witness :
    (update_book 1 (some [("available", Value.vBool false)]) demoStore).1.status = 200
    ∧ (update_book 1 (some [("available", Value.vBool false)]) demoStore).1.book =
        some ⟨1, "Dune", "Frank Herbert", Value.vBool false⟩ := by
  have h := (update_book_frame demoStore 1 ⟨1, "Dune", "Frank Herbert", Value.vBool true⟩
    (by decide) (by decide)).1
  exact ⟨h.1, by rw [h.2.1]⟩

/-- C10 counterexample: for the existing book 1, the payload containing
`available: false` alongside a non-string `title` answers 400 and leaves
the row's `available` as true, so it is not the case that every payload
containing the key `available` gets `bool(value)` stored. -/
theorem update_available_not_always_coerced :
    (update_book 1 (some [("title", Value.vInt 5), ("available", Value.vBool false)])
        demoStore).1.status = 400
    ∧ (update_book 1 (some [("title", Value.vInt 5), ("available", Value.vBool false)])
        demoStore).2 = demoStore
    ∧ ¬ ((update_book 1 (some [("title", Value.vInt 5), ("available", Value.vBool false)])
        demoStore).2.books.map Book.available = [Value.vBool false]) := by
  refine ⟨by decide, by decide, by decide⟩

/-- C10 (amended): whenever the update payload contains the key `available`
and the request reaches the mutation step — that is, the payload has no
`title`/`author` key, or it passes `validate_book_data` — the value stored
for `available` is the truthiness coercion `bool(value)`, so truthy
non-booleans such as the string "no" or the number 1 are accepted and
stored as true rather than rejected. -/
theorem update_available_truthiness (s : Store) (i : Nat) (b : Book)
    (d : List (String × Value)) (v : Value)
    (hfind : s.books.find? (fun x => x.id = i) = some b)
    (hav : lookupField d "available" = some v)
    (hpass : (hasKey d "title" || hasKey d "author") = false
      ∨ (validate_book_data (some d)).1 = true) :
    (update_book i (some d) s).1.status = 200
    ∧ ∃ b2, (update_book i (some d) s).1.book = some b2
      ∧ b2.available = Value.vBool v.truthy
      ∧ (update_book i (some d) s).2.books =
          s.books.map (fun x => if x.id = i then b2 else x) := by
  have hcond :
      ((hasKey d "title" || hasKey d "author") && !(validate_book_data (some d)).1) = false := by
    rcases hpass with h | h
    · simp [h]
    · simp [h]
  refine ⟨?_, applyUpdate d b, ?_, ?_, ?_⟩
  · simp [update_book, hcond, hfind]
  · simp [update_book, hcond, hfind]
  · exact applyUpdate_available_of_present d b v hav
  · simp [update_book, hcond, hfind]

theorem update_available_truthiness_witness :
    (Value.vStr "no").truthy = true
    ∧ ((update_book 1 (some [("available", Value.vStr "no")]) demoStore).1.status = 200
      ∧ ∃ b2, (update_book 1 (some [("available", Value.vStr "no")]) demoStore).1.book = some b2
        ∧ b2.available = Value.vBool ((Value.vStr "no").truthy)
        ∧ (update_book 1 (some [("available", Value.vStr "no")]) demoStore).2.books =
            demoStore.books.map (fun x =>
              if x.id = 1 then b2 else x)) :=
  ⟨rfl, update_available_truthiness demoStore 1 ⟨1, "Dune", "Frank Herbert", Value.vBool true⟩
    [("available", Value.vStr "no")] (Value.vStr "no")
    (by decide) (by decide) (Or.inl (by decide))⟩

/-- Spec-side substring machinery for C7: does `pat` match at the head of
`hay`? -/
def leadMatch : List Char → List Char → Bool
  | [], _ => true
  | _ :: _, [] => false
  | p :: ps, h :: hs => p == h && leadMatch ps hs

/-- Spec-side: does `pat` occur contiguously anywhere in `hay`? -/
def listContains (pat : List Char) : List Char → Bool
  | [] => pat.isEmpty
  | h :: hs => leadMatch pat (h :: hs) || listContains pat hs

/-- The claim's reading of search matching: case-insensitive substring
containment (case folded the same way the SQL query folds). -/
def strContainsCI (hay pat : String) : Bool :=
  listContains (pat.data.map sqlLowerChar) (hay.data.map sqlLowerChar)

/-- No SQL LIKE metacharacter among the given characters. -/
def noWildL (cs : List Char) : Bool :=
  cs.all (fun c => !(c = '%') && !(c = '_'))

/-- No SQL LIKE metacharacter in the string. -/
def noWildcard (s : String) : Bool := noWildL s.data

theorem likeMatch_nil (hay : List Char) : likeMatch [] hay = hay.isEmpty := rfl

theorem likeMatch_plain_nil (p : Char) (ps : List Char) (hp : ¬ p = '%') :
    likeMatch (p :: ps) [] = false := by
  unfold likeMatch
  simp [hp]

theorem likeMatch_plain_cons (p : Char) (ps : List Char) (h : Char) (hs : List Char)
    (hp : ¬ p = '%') :
    likeMatch (p :: ps) (h :: hs) = ((p == '_' || p == h) && likeMatch ps hs) := by
  conv_lhs => unfold likeMatch
  simp [hp]

theorem likeMatch_pct_iff (ps : List Char) (hay : List Char) :
    likeMatch ('%' :: ps) hay = true ↔ ∃ n, likeMatch ps (hay.drop n) = true := by
  have hunf : likeMatch ('%' :: ps) hay =
      (List.range (hay.length + 1)).any (fun n => likeMatch ps (hay.drop n)) := by
    conv_lhs => unfold likeMatch
    simp
  rw [hunf, List.any_eq_true]
  constructor
  · rintro ⟨n, _, hn⟩
    exact ⟨n, hn⟩
  · rintro ⟨n, hn⟩
    by_cases hlen : n ≤ hay.length
    · exact ⟨n, List.mem_range.mpr (by omega), hn⟩
    · refine ⟨hay.length, List.mem_range.mpr (by omega), ?_⟩
      have h1 : hay.drop n = [] := List.drop_eq_nil_of_le (by omega)
      have h2 : hay.drop hay.length = [] := List.drop_eq_nil_of_le (Nat.le_refl _)
      rw [h2]
      rw [h1] at hn
      exact hn

theorem likeMatch_pct_nil (hay : List Char) : likeMatch ['%'] hay = true :=
  (likeMatch_pct_iff [] hay).mpr
    ⟨hay.length, by rw [List.drop_eq_nil_of_le (Nat.le_refl _)]; rfl⟩

theorem likeMatch_append_pct (pat : List Char) (hno : noWildL pat = true) :
    ∀ hay, likeMatch (pat ++ ['%']) hay = leadMatch pat hay := by
  induction pat with
  | nil =>
    intro hay
    rw [List.nil_append, likeMatch_pct_nil]
    rfl
  | cons p ps ih =>
    have hp : ¬ p = '%' ∧ ¬ p = '_' ∧ noWildL ps = true := by
      simp only [noWildL, List.all_cons, Bool.and_eq_true, Bool.not_eq_true',
        decide_eq_false_iff_not] at hno
      exact ⟨hno.1.1, hno.1.2, by simpa [noWildL] using hno.2⟩
    intro hay
    match hay with
    | [] =>
      rw [List.cons_append, likeMatch_plain_nil p (ps ++ ['%']) hp.1]
      rfl
    | h :: hs =>
      rw [List.cons_append, likeMatch_plain_cons p (ps ++ ['%']) h hs hp.1,
        ih hp.2.2 hs]
      have hpu : (p == '_') = false := by
        simp [hp.2.1]
      rw [hpu]
      rfl

theorem leadMatch_nil_iff (pat : List Char) : leadMatch pat [] = true ↔ pat = [] := by
  match pat with
  | [] => simp [leadMatch]
  | p :: ps => simp [leadMatch]

theorem listContains_iff (pat : List Char) (hay : List Char) :
    listContains pat hay = true ↔ ∃ n, leadMatch pat (hay.drop n) = true := by
  induction hay with
  | nil =>
    constructor
    · intro h
      refine ⟨0, ?_⟩
      rw [List.drop_nil, leadMatch_nil_iff]
      simpa [listContains, List.isEmpty_iff] using h
    · rintro ⟨n, hn⟩
      rw [List.drop_nil, leadMatch_nil_iff] at hn
      simp [listContains, hn]
  | cons h hs ih =>
    rw [show listContains pat (h :: hs) =
        (leadMatch pat (h :: hs) || listContains pat hs) from rfl, Bool.or_eq_true]
    constructor
    · rintro (h1 | h2)
      · exact ⟨0, h1⟩
      · obtain ⟨n, hn⟩ := ih.mp h2
        exact ⟨n + 1, hn⟩
    · rintro ⟨n, hn⟩
      match n with
      | 0 => exact Or.inl hn
      | m + 1 => exact Or.inr (ih.mpr ⟨m, hn⟩)

theorem likeMatch_eq_contains (pat : List Char) (hno : noWildL pat = true)
    (hay : List Char) :
    likeMatch ('%' :: (pat ++ ['%'])) hay = listContains pat hay := by
  have hiff : likeMatch ('%' :: (pat ++ ['%'])) hay = true ↔ listContains pat hay = true := by
    rw [likeMatch_pct_iff, listContains_iff]
    constructor
    · rintro ⟨n, hn⟩
      exact ⟨n, by rw [← likeMatch_append_pct pat hno (hay.drop n)]; exact hn⟩
    · rintro ⟨n, hn⟩
      exact ⟨n, by rw [likeMatch_append_pct pat hno (hay.drop n)]; exact hn⟩
  cases h1 : likeMatch ('%' :: (pat ++ ['%'])) hay <;>
    cases h2 : listContains pat hay <;> simp_all

theorem toNat_ofNat_valid (n : Nat) (h : n.isValidChar) : (Char.ofNat n).toNat = n := by
  unfold Char.ofNat
  rw [dif_pos h]
  rfl

theorem sqlLowerChar_wild_iff (c : Char) :
    (sqlLowerChar c = '%' → c = '%') ∧ (sqlLowerChar c = '_' → c = '_') := by
  unfold sqlLowerChar
  split
  · rename_i hr
    have hb : 65 ≤ c.toNat ∧ c.toNat ≤ 90 := by
      simpa using hr
    have hv : (c.toNat + 32).isValidChar := Or.inl (by omega)
    constructor <;> intro he
    · exfalso
      have h2 := congrArg Char.toNat he
      rw [toNat_ofNat_valid _ hv] at h2
      have h3 : ('%').toNat = 37 := rfl
      rw [h3] at h2
      omega
    · exfalso
      have h2 := congrArg Char.toNat he
      rw [toNat_ofNat_valid _ hv] at h2
      have h3 : ('_').toNat = 95 := rfl
      rw [h3] at h2
      omega
  · exact ⟨fun h => h, fun h => h⟩

theorem noWildL_map_sqlLower (cs : List Char) (h : noWildL cs = true) :
    noWildL (cs.map sqlLowerChar) = true := by
  induction cs with
  | nil => rfl
  | cons c tl ih =>
    simp only [noWildL, List.map_cons, List.all_cons, Bool.and_eq_true,
      Bool.not_eq_true', decide_eq_false_iff_not] at h ⊢
    refine ⟨⟨?_, ?_⟩, ?_⟩
    · exact fun he => h.1.1 ((sqlLowerChar_wild_iff c).1 he)
    · exact fun he => h.1.2 ((sqlLowerChar_wild_iff c).2 he)
    · have := ih (by simpa [noWildL] using h.2)
      simpa [noWildL] using this

theorem sqlLowerChar_pct : sqlLowerChar '%' = '%' := by decide

theorem ilike_eq_strContainsCI (hay : String) (t : String)
    (hno : noWildcard t = true) :
    ilike hay ('%' :: t.data ++ ['%']) = strContainsCI hay t := by
  unfold ilike strContainsCI
  have hmap : ('%' :: t.data ++ ['%']).map sqlLowerChar
      = '%' :: (t.data.map sqlLowerChar ++ ['%']) := by
    simp [sqlLowerChar_pct]
  rw [hmap]
  exact likeMatch_eq_contains _ (noWildL_map_sqlLower _ hno) _

theorem filter_filter_and (l : List Book) (p q : Book → Bool) :
    (l.filter p).filter q = l.filter (fun b => p b && q b) := by
  induction l with
  | nil => rfl
  | cons x tl ih =>
    by_cases hp : p x <;> by_cases hq : q x <;>
      simp [List.filter_cons, hp, hq, ih]

theorem filter_congr_books (l : List Book) (p q : Book → Bool)
    (h : ∀ b, p b = q b) : l.filter p = l.filter q := by
  induction l with
  | nil => rfl
  | cons x tl ih => simp [List.filter_cons, h x, ih]

/-- C7 (amended): search answers 400 exactly when both query parameters are
empty after trimming; otherwise it answers 200, the reported count is the
number of returned books, and the returned books are exactly the rows
matching the SQL LIKE pattern built around each given parameter (title
filter, author filter, or their conjunction).  For parameters containing no
LIKE wildcard (`%` or `_`) — as in every example in the specification —
this is exactly case-insensitive substring filtering; a parameter that does
contain a wildcard is interpreted as a LIKE pattern rather than as a
literal substring (see the counterexample theorem). -/
theorem search_books_characterization (title author : Option String) (s : Store)
    (hnt : noWildcard (pyStrip (title.getD "")) = true)
    (hna : noWildcard (pyStrip (author.getD "")) = true) :
    ((search_books title author s).status = 400 ↔
      (pyStrip (title.getD "") = "" ∧ pyStrip (author.getD "") = ""))
    ∧ (search_books title author s).count = (search_books title author s).books.length
    ∧ (pyStrip (title.getD "") ≠ "" → pyStrip (author.getD "") = "" →
        (search_books title author s).books =
          s.books.filter (fun b => strContainsCI b.title (pyStrip (title.getD ""))))
    ∧ (pyStrip (title.getD "") = "" → pyStrip (author.getD "") ≠ "" →
        (search_books title author s).books =
          s.books.filter (fun b => strContainsCI b.author (pyStrip (author.getD ""))))
    ∧ (pyStrip (title.getD "") ≠ "" → pyStrip (author.getD "") ≠ "" →
        (search_books title author s).books =
          s.books.filter (fun b =>
            strContainsCI b.title (pyStrip (title.getD ""))
              && strContainsCI b.author (pyStrip (author.getD "")))) := by
  by_cases ht : pyStrip (title.getD "") = "" <;>
    by_cases ha : pyStrip (author.getD "") = ""
  · refine ⟨by simp [search_books, ht, ha], by simp [search_books, ht, ha], ?_, ?_, ?_⟩
    · intro h
      exact absurd ht h
    · intro _ h
      exact absurd ha h
    · intro h
      exact absurd ht h
  · have hbooks : (search_books title author s).books =
        s.books.filter
          (fun b => ilike b.author ('%' :: (pyStrip (author.getD "")).data ++ ['%'])) := by
      simp [search_books, ht, ha]
    refine ⟨by simp [search_books, ht, ha], by simp [search_books, ht, ha], ?_, ?_, ?_⟩
    · intro h _
      exact absurd ht h
    · intro _ _
      rw [hbooks]
      exact filter_congr_books _ _ _ (fun b => ilike_eq_strContainsCI b.author _ hna)
    · intro h _
      exact absurd ht h
  · have hbooks : (search_books title author s).books =
        s.books.filter
          (fun b => ilike b.title ('%' :: (pyStrip (title.getD "")).data ++ ['%'])) := by
      simp [search_books, ht, ha]
    refine ⟨by simp [search_books, ht, ha], by simp [search_books, ht, ha], ?_, ?_, ?_⟩
    · intro _ _
      rw [hbooks]
      exact filter_congr_books _ _ _ (fun b => ilike_eq_strContainsCI b.title _ hnt)
    · intro h _
      exact absurd h ht
    · intro _ h
      exact absurd ha h
  · have hbooks : (search_books title author s).books =
        (s.books.filter
            (fun b => ilike b.title ('%' :: (pyStrip (title.getD "")).data ++ ['%']))).filter
          (fun b => ilike b.author ('%' :: (pyStrip (author.getD "")).data ++ ['%'])) := by
      simp [search_books, ht, ha]
    refine ⟨by simp [search_books, ht, ha], by simp [search_books, ht, ha], ?_, ?_, ?_⟩
    · intro _ h
      exact absurd h ha
    · intro h _
      exact absurd h ht
    · intro _ _
      rw [hbooks, filter_filter_and]
      refine filter_congr_books _ _ _ (fun b => ?_)
      rw [ilike_eq_strContainsCI b.title _ hnt, ilike_eq_strContainsCI b.author _ hna]

theorem search_books_characterization_witness :
    (search_books none none demoStore).status = 400
    ∧ (search_books (some " dun ") none demoStore).books =
        demoStore.books.filter
          (fun b => strContainsCI b.title (pyStrip ((some " dun ").getD ""))) := by
  constructor
  · exact ((search_books_characterization none none demoStore
      (by decide) (by decide)).1).mpr ⟨by decide, by decide⟩
  · exact (search_books_characterization (some " dun ") none demoStore
      (by decide) (by decide)).2.2.1 (by decide) (by decide)

/-- C7 counterexample: against a store holding the single book "Dune",
searching with title parameter "D%e" returns that book (SQL LIKE treats `%`
as a wildcard inside the `%D%e%` pattern) even though "D%e" is not a
case-insensitive substring of "Dune" — so search is not exactly
"case-insensitive substring containment" for every parameter. -/
theorem search_books_wildcard_counterexample :
    (search_books (some "D%e") none demoStore).status = 200
    ∧ (search_books (some "D%e") none demoStore).books = demoStore.books
    ∧ strContainsCI "Dune" "D%e" = false := by
  refine ⟨by decide, by decide, by decide⟩
